import Mathlib

set_option linter.unusedVariables false

/-!
Shallow embedding of the session-management core of openair-cn:

* the Sm-interface GTPv2C information-element decoders of
  `src/sm/sm_ie_formatter.c`, and
* the ESM PDN-connectivity table operations of
  `SRC/NAS/ESM/PdnConnectivity.c`.

Conventions.  A decoder receives the declared IE length `ieLength` and the
IE body `ieValue` as a list holding exactly `ieLength` bytes (each < 256);
`ieValue.get? k` is the C read `ieValue[k]` after pointer adjustment, so a
`none` result of a decoder models an access beyond the declared IE length
or a failed `DevAssert` (both abort normal completion in the C code).
The two source loops whose `decoded` counter is never incremented are
embedded with an explicit iteration budget (`fuel`); the never-changing
`decoded` is carried through the recursion exactly as the C code keeps it.
Machine integers are `Nat`/`Int` with explicit reduction modulo 2^32 where
the C code stores into a `uint32_t`.
-/

/-- Return codes of the NwGtpv2c IE decode callbacks (`nw_rc_t` values used
in `sm_ie_formatter.c`). -/
inductive NwRc where
  | NW_OK
  | NW_FAILURE
  | NW_GTPV2C_IE_INCORRECT
deriving DecidableEq

open NwRc

/-- IE bodies are byte lists. -/
abbrev Bytes := List Nat

/-- Modulus of the C type `uint32_t`. -/
def UINT32_MOD : Nat := 2 ^ 32

/-- Modelled from the spec: the service-id digit count `MBMS_SERVICE_ID_DIGITS`
(the constant comes from a 3GPP header that is not under `src/`; the spec
describes the first `N` bytes of the TMGI body as the service-id digits and
the TMGI body as those bytes followed by 3 PLMN bytes, giving N = 6 for the
standard 9-byte layout modelled here).  Only positivity of the constant
matters for the theorems below. -/
def MBMS_SERVICE_ID_DIGITS : Nat := 6

/-- PLMN identity digits (`plmn_t`), one decimal digit per field. -/
structure PlmnT where
  mcc_digit1 : Nat
  mcc_digit2 : Nat
  mcc_digit3 : Nat
  mnc_digit1 : Nat
  mnc_digit2 : Nat
  mnc_digit3 : Nat
deriving DecidableEq

/-- TMGI output record (`tmgi_t`): a 32-bit service id and a PLMN. -/
structure TmgiT where
  serviceId : Nat
  plmn : PlmnT
deriving DecidableEq

/-- The `while (decoded < MBMS_SERVICE_ID_DIGITS)` loop of `sm_tmgi_ie_get`.
State: `decoded` (never incremented by the source code, and therefore
carried unchanged here), the current offset of the advanced `ieValue`
pointer, and the accumulated `serviceId`.  Each iteration reads
`ieValue[decoded]` (i.e. offset `off + decoded`), folds it into
`serviceId` as `tmp + (serviceId << 8)` stored in a `uint32_t`, and
advances the pointer.  `fuel` bounds the number of iterations observed;
running out of fuel yields `none` (no result reached). -/
def tmgiServiceIdLoop (ieValue : Bytes) :
    Nat → Nat → Nat → Nat → Option (Nat × Nat)
  | 0, _, _, _ => none
  | fuel + 1, decoded, off, serviceId =>
    if decoded < MBMS_SERVICE_ID_DIGITS then
      match ieValue.get? (off + decoded) with
      | none => none
      | some tmp =>
        tmgiServiceIdLoop ieValue fuel decoded (off + 1)
          ((tmp + (serviceId <<< 8)) % UINT32_MOD)
    else
      some (off, serviceId)

/-- `sm_tmgi_ie_get`: asserts `ieLength <= MBMS_SERVICE_ID_DIGITS`, runs the
service-id loop starting from the caller-supplied `serviceId`, then decodes
the next 3 bytes as swapped-nibble PLMN digits. -/
def sm_tmgi_ie_get (ieLength : Nat) (ieValue : Bytes) (tmgi : TmgiT)
    (fuel : Nat) : Option (NwRc × TmgiT) :=
  if ieLength ≤ MBMS_SERVICE_ID_DIGITS then
    match tmgiServiceIdLoop ieValue fuel 0 0 tmgi.serviceId with
    | none => none
    | some (off, sid) =>
      match ieValue.get? off, ieValue.get? (off + 1), ieValue.get? (off + 2) with
      | some p0, some p1, some p2 =>
        some (NW_OK,
          { serviceId := sid,
            plmn :=
              { mcc_digit2 := (p0 &&& 0xf0) >>> 4,
                mcc_digit1 := p0 &&& 0x0f,
                mnc_digit3 := (p1 &&& 0xf0) >>> 4,
                mcc_digit3 := p1 &&& 0x0f,
                mnc_digit2 := (p2 &&& 0xf0) >>> 4,
                mnc_digit1 := p2 &&& 0x0f } })
      | _, _, _ => none
  else none

/-- MBMS session duration output record (`mbms_session_duration_t`). -/
structure MbmsSessionDuration where
  seconds : Nat
  days : Nat
deriving DecidableEq

/-- `sm_mbms_session_duration_ie_get`: reads `ieValue[0] .. ieValue[3]`
unconditionally and reconstructs
`seconds = (ieValue[0] << 17) + (ieValue[1] << 9) + (ieValue[2] & 0x80)`
(stored in a `uint32_t`) and `days = ieValue[3] & 0x7F`. -/
def sm_mbms_session_duration_ie_get (ieLength : Nat) (ieValue : Bytes)
    (msd : MbmsSessionDuration) : Option (NwRc × MbmsSessionDuration) :=
  match ieValue.get? 0, ieValue.get? 1, ieValue.get? 2, ieValue.get? 3 with
  | some b0, some b1, some b2, some b3 =>
    some (NW_OK,
      { seconds := ((b0 <<< 17) + (b1 <<< 9) + (b2 &&& 0x80)) % UINT32_MOD,
        days := b3 &&& 0x7F })
  | _, _, _, _ => none

/-- MBMS service area output record (`mbms_service_area_t`).  Each stored
element is the pair of source bytes of one 16-bit service-area code, in
source order (the C code reinterprets the two bytes as a `uint16_t`). -/
structure MbmsServiceArea where
  num_service_area : Nat
  serviceArea : List (Nat × Nat)
deriving DecidableEq

/-- The `while (decoded < num_service_area)` loop of
`sm_mbms_service_area_ie_get`.  As in the source, `decoded` is never
incremented; each iteration stores the two bytes at the current offset into
`serviceArea[decoded]` and advances the pointer by 2. -/
def serviceAreaLoop (ieValue : Bytes) (num : Nat) :
    Nat → Nat → Nat → List (Nat × Nat) → Option (List (Nat × Nat))
  | 0, _, _, _ => none
  | fuel + 1, decoded, off, arr =>
    if decoded < num then
      match ieValue.get? off, ieValue.get? (off + 1) with
      | some lo, some hi =>
        serviceAreaLoop ieValue num fuel decoded (off + 2) (arr.set decoded (lo, hi))
      | _, _ => none
    else
      some arr

/-- `sm_mbms_service_area_ie_get`: reads the element count from the first
byte, then runs the copy loop over the subsequent byte pairs. -/
def sm_mbms_service_area_ie_get (ieLength : Nat) (ieValue : Bytes)
    (msa : MbmsServiceArea) (fuel : Nat) : Option (NwRc × MbmsServiceArea) :=
  match ieValue.get? 0 with
  | none => none
  | some n =>
    match serviceAreaLoop ieValue n fuel 0 1 msa.serviceArea with
    | none => none
    | some arr => some (NW_OK, { num_service_area := n, serviceArea := arr })

/-- `sm_mbms_flow_identifier_ie_get`: the flow identifier is the first two
bytes reinterpreted as a `uint16_t`; the pair keeps the source byte order. -/
def sm_mbms_flow_identifier_ie_get (ieLength : Nat) (ieValue : Bytes) :
    Option (NwRc × (Nat × Nat)) :=
  match ieValue.get? 0, ieValue.get? 1 with
  | some b0, some b1 => some (NW_OK, (b0, b1))
  | _, _ => none

/-- `memcpy` of `n` bytes starting at offset `off`; `none` when any byte
would be read beyond the supplied bytes. -/
def readN (ieValue : Bytes) (off : Nat) : Nat → Option (List Nat)
  | 0 => some []
  | n + 1 =>
    match ieValue.get? off, readN ieValue (off + 1) n with
    | some b, some rest => some (b :: rest)
    | _, _ => none

/-- A decoded multicast address: 4 IPv4 bytes kept in network order
(`s_addr = htonl(big-endian value of the 4 source bytes)`, i.e. the source
bytes verbatim), or 16 IPv6 bytes copied verbatim.  `unset` is the state of
the caller-supplied record before any address was written. -/
inductive MbmsAddr where
  | unset
  | ipv4 (networkOrderBytes : List Nat)
  | ipv6 (bytes : List Nat)
deriving DecidableEq

/-- MBMS IP multicast distribution output record
(`mbms_ip_multicast_distribution_t`). -/
structure MbmsIpMulticastDistribution where
  cteid : Nat
  da_type : Nat
  sa_type : Nat
  distribution_address : MbmsAddr
  source_address : MbmsAddr
  hc_indication : Nat
deriving DecidableEq

/-- Second half of `sm_mbms_ip_multicast_distribution_ie_get`: the source
address (descriptor byte at offset `off`) followed by the final
`hc_indication` byte.  Mirrors the distribution-address block of the source
code field for field. -/
def ipMcSourcePart (ieValue : Bytes) (off : Nat)
    (a : MbmsIpMulticastDistribution) :
    Option (NwRc × MbmsIpMulticastDistribution) :=
  match ieValue.get? off with
  | none => none
  | some d =>
    let a1 := { a with sa_type := (d &&& 0xC0) >>> 6 }
    let sa_length := d &&& 0x3F
    if a1.sa_type = 0 then
      match ieValue.get? (off + 1), ieValue.get? (off + 2),
            ieValue.get? (off + 3), ieValue.get? (off + 4) with
      | some b0, some b1, some b2, some b3 =>
        let a2 := { a1 with source_address := MbmsAddr.ipv4 [b0, b1, b2, b3] }
        match ieValue.get? (off + 5) with
        | none => none
        | some hc => some (NW_OK, { a2 with hc_indication := hc })
      | _, _, _, _ => none
    else if a1.sa_type = 1 then
      if sa_length ≠ 16 then some (NW_FAILURE, a1)
      else
        match readN ieValue (off + 1) 16 with
        | none => none
        | some bs =>
          let a2 := { a1 with source_address := MbmsAddr.ipv6 bs }
          match ieValue.get? (off + 17) with
          | none => none
          | some hc => some (NW_OK, { a2 with hc_indication := hc })
    else some (NW_FAILURE, a1)

/-- `sm_mbms_ip_multicast_distribution_ie_get`: 4 CTEID bytes assembled
big-endian (`ntoh_int32_buf`), then the tagged distribution address
(descriptor byte: top 2 bits address family, low 6 bits explicit length),
then the tagged source address and the final `hc_indication` byte via
`ipMcSourcePart`.  Family 0 copies 4 IPv4 bytes (network order); family 1
requires the explicit length to equal 16 and copies 16 bytes; any other
family returns `NW_FAILURE` with the record as written so far. -/
def sm_mbms_ip_multicast_distribution_ie_get (ieLength : Nat)
    (ieValue : Bytes) (a : MbmsIpMulticastDistribution) :
    Option (NwRc × MbmsIpMulticastDistribution) :=
  match ieValue.get? 0, ieValue.get? 1, ieValue.get? 2, ieValue.get? 3 with
  | some c0, some c1, some c2, some c3 =>
    let a0 := { a with
      cteid := (c0 <<< 24) ||| (c1 <<< 16) ||| (c2 <<< 8) ||| c3 }
    match ieValue.get? 4 with
    | none => none
    | some d =>
      let a1 := { a0 with da_type := (d &&& 0xC0) >>> 6 }
      let da_length := d &&& 0x3F
      if a1.da_type = 0 then
        match ieValue.get? 5, ieValue.get? 6, ieValue.get? 7, ieValue.get? 8 with
        | some b0, some b1, some b2, some b3 =>
          ipMcSourcePart ieValue 9
            { a1 with distribution_address := MbmsAddr.ipv4 [b0, b1, b2, b3] }
        | _, _, _, _ => none
      else if a1.da_type = 1 then
        if da_length ≠ 16 then some (NW_FAILURE, a1)
        else
          match readN ieValue 5 16 with
          | none => none
          | some bs =>
            ipMcSourcePart ieValue 21
              { a1 with distribution_address := MbmsAddr.ipv6 bs }
      else some (NW_FAILURE, a1)
  | _, _, _, _ => none

/-- MBMS absolute time of data transfer output record
(`mbms_abs_time_data_transfer_t`): 8 opaque bytes copied verbatim. -/
structure MbmsAbsTimeDataTransfer where
  abs_time : List Nat
deriving DecidableEq

/-- `sm_mbms_data_transfer_start_ie_get`: copies 8 bytes verbatim. -/
def sm_mbms_data_transfer_start_ie_get (ieLength : Nat) (ieValue : Bytes)
    (t : MbmsAbsTimeDataTransfer) : Option (NwRc × MbmsAbsTimeDataTransfer) :=
  match readN ieValue 0 8 with
  | none => none
  | some bs => some (NW_OK, { abs_time := bs })

/-- MBMS bearer flags output record (`mbms_flags_t`).  Modelled from the
spec: the two flag fields are booleans (the struct declaration is not under
`src/`); the C assignments `msri = ieValue[0] & 0x01` and
`lmri = ieValue[0] & 0x02` set each flag exactly when the masked value is
nonzero. -/
structure MbmsFlags where
  msri : Bool
  lmri : Bool
deriving DecidableEq

/-- `sm_mbms_flags_ie_get`: declared length must be exactly 1, otherwise
`NW_GTPV2C_IE_INCORRECT` without touching the output; then bit 0 is the
MSRI flag and bit 1 the LMRI flag. -/
def sm_mbms_flags_ie_get (ieLength : Nat) (ieValue : Bytes)
    (f : MbmsFlags) : Option (NwRc × MbmsFlags) :=
  if ieLength ≠ 1 then some (NW_GTPV2C_IE_INCORRECT, f)
  else
    match ieValue.get? 0 with
    | none => none
    | some b0 =>
      some (NW_OK, { msri := b0 &&& 0x01 != 0, lmri := b0 &&& 0x02 != 0 })

/-! ## PDN connectivity table (`SRC/NAS/ESM/PdnConnectivity.c`) -/

/-- Modelled from the spec: fixed capacity `ESM_DATA_PDN_MAX` of the
per-subscriber PDN connection table (`MAX_PDN`; the defining header
`esmData.h` is not under `src/`).  Only positivity of the value matters for
the theorems below. -/
def ESM_DATA_PDN_MAX : Nat := 4

/-- Modelled from the spec: capacity `ESM_DATA_IP_ADDRESS_SIZE` of the
fixed address buffer of a PDN connection record (header not under `src/`);
the exact value is immaterial to the claims. -/
def ESM_DATA_IP_ADDRESS_SIZE : Nat := 8

/-- Modelled from the spec: the `Unassigned` sentinel `ESM_PT_UNASSIGNED`
for procedure transaction identities (header not under `src/`; value 0, the
reserved unassigned PTI of 3GPP 24.007). -/
def ESM_PT_UNASSIGNED : Int := 0

/-- Modelled from the spec: `RETURNok` (header `commonDef.h` not under
`src/`). -/
def RETURNok : Int := 0

/-- Modelled from the spec: `RETURNerror`; negative, as the source relies
on `pid < 0` marking a failed create (header not under `src/`). -/
def RETURNerror : Int := -1

/-- Modelled from the spec: the `Success` ESM cause (header `esm_cause.h`
not under `src/`; the exact numeric value is immaterial). -/
def ESM_CAUSE_SUCCESS : Int := 0

/-- Modelled from the spec: the `InsufficientResources` ESM cause (3GPP
24.301 cause 26; header not under `src/`). -/
def ESM_CAUSE_INSUFFICIENT_RESOURCES : Int := 26

/-- PDN connection record (`esm_pdn_t`), restricted to the fields written
by `PdnConnectivity.c`: transaction id, emergency indicator, owned APN
copy, fixed-capacity address buffer and PDN type. -/
structure EsmPdnData where
  pti : Int
  is_emergency : Bool
  apn_length : Nat
  apn_value : List Nat
  ip_addr : List Nat
  pdn_type : Nat
deriving DecidableEq

/-- One slot of `ctx->esm_data_ctx.pdn`: stored identifier, activity flag
and the owned connection record (`data == NULL` marks a free slot). -/
structure PdnSlot where
  pid : Int
  is_active : Bool
  data : Option EsmPdnData
deriving DecidableEq

instance : Inhabited PdnSlot :=
  ⟨{ pid := -1, is_active := false, data := none }⟩

/-- The per-subscriber ESM data (`esm_data_ctx`): live count and the
fixed-capacity slot array. -/
structure EsmDataCtx where
  n_pdns : Int
  pdn : List PdnSlot
deriving DecidableEq

/-- Modelled from the spec: the empty subscriber table (the context
initialisation code is not under `src/`).  Every slot is free with the
sentinel identifier -1 and the live count is 0. -/
def emptyEsmCtx : EsmDataCtx :=
  { n_pdns := 0, pdn := List.replicate ESM_DATA_PDN_MAX default }

/-- The search loop of `_pdn_connectivity_create`: index of the first slot
whose `data` pointer is `NULL`, scanning from index 0 upward. -/
def findFreePid : List PdnSlot → Option Nat
  | [] => none
  | s :: rest =>
    if s.data.isSome then (findFreePid rest).map (· + 1) else some 0

/-- The fresh `esm_pdn_t` record built by `_pdn_connectivity_create` after
`memset 0`: sets `pti` and `is_emergency`; copies the APN (when non-empty
and its allocation succeeds) into an owned buffer with a terminating zero
byte; copies at most `ESM_DATA_IP_ADDRESS_SIZE` address bytes and records
`pdn_type` only when an address was supplied. -/
def newPdnData (pti : Int) (apn : List Nat) (pdn_type : Nat)
    (pdn_addr : List Nat) (is_emergency : Bool) (apnAllocOk : Bool) :
    EsmPdnData :=
  let d : EsmPdnData :=
    { pti := 0, is_emergency := false, apn_length := 0, apn_value := [],
      ip_addr := List.replicate ESM_DATA_IP_ADDRESS_SIZE 0, pdn_type := 0 }
  let d := { d with pti := pti, is_emergency := is_emergency }
  let d :=
    if 0 < apn.length then
      if apnAllocOk then
        { d with apn_length := apn.length, apn_value := apn ++ [0] }
      else d
    else d
  if 0 < pdn_addr.length then
    let length := min pdn_addr.length ESM_DATA_IP_ADDRESS_SIZE
    { d with
      ip_addr := pdn_addr.take length ++
        List.replicate (ESM_DATA_IP_ADDRESS_SIZE - length) 0,
      pdn_type := pdn_type }
  else d

/-- `_pdn_connectivity_create`: scans for the first free slot; when one
exists and the allocation of the connection record succeeds (`allocOk`,
the outcome of `MALLOC_CHECK`), occupies it with `pid` equal to the slot
index, `is_active = false` and the fresh record, increments `n_pdns`, and
returns the slot index; otherwise returns -1 with the context untouched.
`apnAllocOk` is the outcome of the inner APN buffer allocation (its
failure does not fail the create). -/
def _pdn_connectivity_create (ctx : EsmDataCtx) (pti : Int) (apn : List Nat)
    (pdn_type : Nat) (pdn_addr : List Nat) (is_emergency : Bool)
    (allocOk : Bool) (apnAllocOk : Bool) : Int × EsmDataCtx :=
  match findFreePid ctx.pdn with
  | none => (-1, ctx)
  | some pid =>
    if pid < ESM_DATA_PDN_MAX then
      if allocOk then
        let d := newPdnData pti apn pdn_type pdn_addr is_emergency apnAllocOk
        let slot : PdnSlot :=
          { pid := (pid : Int), is_active := false, data := some d }
        ((pid : Int),
          { n_pdns := ctx.n_pdns + 1, pdn := ctx.pdn.set pid slot })
      else (-1, ctx)
    else (-1, ctx)

/-- `_pdn_connectivity_delete`: guarded release of slot `pid`.  The source
only checks `pid < ESM_DATA_PDN_MAX` before evaluating
`ctx->esm_data_ctx.pdn[pid]`, so a negative `pid` indexes the array out of
bounds: that undefined access is modelled as `none`.  Otherwise the
recovered `pti` stays `ESM_PT_UNASSIGNED` unless the slot's stored id
matches, the slot is occupied and inactive; the release block (decrement
`n_pdns`, reset the stored id to -1, free the record) runs only when the
recovered `pti` differs from `ESM_PT_UNASSIGNED`.
`deleteRecoveredPti` is the value of the local variable `pti` after the
guard chain of the source. -/
def deleteRecoveredPti (ctx : EsmDataCtx) (pid : Int) : Int :=
  if pid ≠ (ctx.pdn.getD pid.toNat default).pid then ESM_PT_UNASSIGNED
  else
    match (ctx.pdn.getD pid.toNat default).data with
    | none => ESM_PT_UNASSIGNED
    | some d =>
      if (ctx.pdn.getD pid.toNat default).is_active then ESM_PT_UNASSIGNED
      else d.pti

def _pdn_connectivity_delete (ctx : EsmDataCtx) (pid : Int) :
    Option (Int × EsmDataCtx) :=
  if pid < (ESM_DATA_PDN_MAX : Int) then
    if pid < 0 then none
    else
      if deleteRecoveredPti ctx pid ≠ ESM_PT_UNASSIGNED then
        some (deleteRecoveredPti ctx pid,
          { n_pdns := ctx.n_pdns - 1,
            pdn := ctx.pdn.set pid.toNat
              { pid := -1,
                is_active := (ctx.pdn.getD pid.toNat default).is_active,
                data := none } })
      else some (deleteRecoveredPti ctx pid, ctx)
  else some (ESM_PT_UNASSIGNED, ctx)

/-- `esm_proc_pdn_connectivity_failure`: deletes the entry and reports
`RETURNok` exactly when the recovered `pti` differs from
`ESM_PT_UNASSIGNED`. -/
def esm_proc_pdn_connectivity_failure (ctx : EsmDataCtx) (pid : Int) :
    Option (Int × EsmDataCtx) :=
  match _pdn_connectivity_delete ctx pid with
  | none => none
  | some (pti, ctx1) =>
    if pti ≠ ESM_PT_UNASSIGNED then some (RETURNok, ctx1)
    else some (RETURNerror, ctx1)

/-- Modelled from the spec: the request type of the PDN connectivity
procedure (`esm_proc_pdn_request_t` is not under `src/`; the source only
compares it against `ESM_PDN_REQUEST_EMERGENCY`). -/
inductive PdnRequestType where
  | normal
  | emergency
deriving DecidableEq, BEq

/-- `esm_proc_pdn_connectivity_request` with the observed build's stubbed
capability check (`rc = RETURNok`): derives `is_emergency` from the
request type, calls `_pdn_connectivity_create`, and on failure reports
`RETURNerror` with the `InsufficientResources` cause; on success returns
the new connection id with the `Success` cause.  Result: (return value,
`esm_cause`, updated context). -/
def esm_proc_pdn_connectivity_request (ctx : EsmDataCtx) (pti : Int)
    (request_type : PdnRequestType) (apn : List Nat) (pdn_type : Nat)
    (pdn_addr : List Nat) (allocOk : Bool) (apnAllocOk : Bool) :
    Int × Int × EsmDataCtx :=
  match _pdn_connectivity_create ctx pti apn pdn_type pdn_addr
      (request_type == PdnRequestType.emergency) allocOk apnAllocOk with
  | (pid, ctx1) =>
    if pid < 0 then (RETURNerror, ESM_CAUSE_INSUFFICIENT_RESOURCES, ctx1)
    else (pid, ESM_CAUSE_SUCCESS, ctx1)

/-- One call of the table interface, with the allocation outcomes of a
create call made explicit. -/
inductive PdnOp where
  | create (pti : Int) (apn : List Nat) (pdn_type : Nat)
      (pdn_addr : List Nat) (is_emergency : Bool)
      (allocOk : Bool) (apnAllocOk : Bool)
  | delete (pid : Int)

/-- Runs a sequence of create/delete calls; `none` as soon as a call hits
the out-of-bounds access of `_pdn_connectivity_delete`. -/
def runPdnOps : EsmDataCtx → List PdnOp → Option EsmDataCtx
  | ctx, [] => some ctx
  | ctx, PdnOp.create pti apn ty addr em ao aao :: ops =>
    runPdnOps (_pdn_connectivity_create ctx pti apn ty addr em ao aao).2 ops
  | ctx, PdnOp.delete pid :: ops =>
    match _pdn_connectivity_delete ctx pid with
    | none => none
    | some (_, ctx1) => runPdnOps ctx1 ops

/-- Number of occupied (non-free) slots. -/
def occCount : List PdnSlot → Nat
  | [] => 0
  | s :: rest => (if s.data.isSome then 1 else 0) + occCount rest

/-- Every occupied slot stores its own index as id; every free slot stores
the sentinel -1. -/
def slotsWellFormed (l : List PdnSlot) : Prop :=
  ∀ i, i < l.length →
    ((l.getD i default).data.isSome → (l.getD i default).pid = (i : Int)) ∧
    ((l.getD i default).data.isNone → (l.getD i default).pid = -1)

/-- The slot invariant of the subscriber table. -/
def EsmInvariant (ctx : EsmDataCtx) : Prop :=
  ctx.pdn.length = ESM_DATA_PDN_MAX ∧
  ctx.n_pdns = (occCount ctx.pdn : Int) ∧
  slotsWellFormed ctx.pdn

/-! ## Helper lemmas about the decoders -/

/-- The TMGI service-id loop never reaches its exit: `decoded` starts at 0,
is never incremented, and `MBMS_SERVICE_ID_DIGITS` is positive, so the
guard is true at every iteration. -/
lemma tmgiServiceIdLoop_eq_none (ieValue : Bytes) :
    ∀ fuel off sid, tmgiServiceIdLoop ieValue fuel 0 off sid = none := by
  intro fuel
  induction fuel with
  | zero => intro off sid; rfl
  | succ n ih =>
    intro off sid
    unfold tmgiServiceIdLoop
    have h : (0 : Nat) < MBMS_SERVICE_ID_DIGITS := by decide
    simp only [if_pos h]
    cases ieValue.get? (off + 0) with
    | none => rfl
    | some tmp => exact ih (off + 1) _

/-- The TMGI decoder never produces a result, whatever the declared
length, the bytes, the initial record and the iteration budget. -/
lemma sm_tmgi_ie_get_eq_none (ieLength : Nat) (ieValue : Bytes)
    (tmgi : TmgiT) (fuel : Nat) :
    sm_tmgi_ie_get ieLength ieValue tmgi fuel = none := by
  unfold sm_tmgi_ie_get
  by_cases h : ieLength ≤ MBMS_SERVICE_ID_DIGITS
  · simp only [if_pos h, tmgiServiceIdLoop_eq_none]
  · simp only [if_neg h]

/-- The service-area copy loop never reaches its exit when the element
count is positive: `decoded` stays 0 forever. -/
lemma serviceAreaLoop_eq_none (ieValue : Bytes) (num : Nat) (hnum : 0 < num) :
    ∀ fuel off arr, serviceAreaLoop ieValue num fuel 0 off arr = none := by
  intro fuel
  induction fuel with
  | zero => intro off arr; rfl
  | succ n ih =>
    intro off arr
    unfold serviceAreaLoop
    simp only [if_pos hnum]
    cases ieValue.get? off with
    | none => rfl
    | some lo =>
      cases ieValue.get? (off + 1) with
      | none => rfl
      | some hi => exact ih (off + 2) _

lemma and_one_bne_zero (b : Nat) : (b &&& 1 != 0) = b.testBit 0 := by
  have h : b &&& 1 = (b.testBit 0).toNat * 1 := Nat.and_two_pow b 0
  rw [Nat.mul_one] at h
  rw [h]
  cases hb : b.testBit 0 <;> rfl

lemma and_two_bne_zero (b : Nat) : (b &&& 2 != 0) = b.testBit 1 := by
  have h : b &&& 2 = (b.testBit 1).toNat * 2 := Nat.and_two_pow b 1
  rw [h]
  cases hb : b.testBit 1 <;> rfl

/-! ## Decoder claims -/

/-- Claim C1: the claim states that no decoder ever reads a byte at an
offset at or beyond the declared IE length.  The session-duration decoder
refutes it: handed a body of exactly its declared length 0, it still
dereferences `ieValue[0] .. ieValue[3]`, i.e. it reads past the declared
length (modelled by the `none` result). -/
theorem C1_session_duration_reads_past_declared_length :
    sm_mbms_session_duration_ie_get 0 [] { seconds := 0, days := 0 } = none := rfl

/-- Claim C9: for a 4-byte session-duration body `b0 b1 b2 b3`, the decoded
seconds field is `(b0 << 17) + (b1 << 9) + (b2 & 0x80)` and the days field
is `b3 & 0x7F`. -/
theorem C9_session_duration_fields (b0 b1 b2 b3 : Nat)
    (h0 : b0 < 256) (h1 : b1 < 256) (h2 : b2 < 256) (h3 : b3 < 256)
    (msd : MbmsSessionDuration) :
    sm_mbms_session_duration_ie_get 4 [b0, b1, b2, b3] msd =
      some (NW_OK,
        { seconds := b0 * 2 ^ 17 + b1 * 2 ^ 9 + (b2 &&& 0x80),
          days := b3 &&& 0x7F }) := by
  have hb : b2 &&& 0x80 ≤ 0x80 := Nat.and_le_right
  have hlt : (b0 <<< 17) + (b1 <<< 9) + (b2 &&& 0x80) < UINT32_MOD := by
    rw [Nat.shiftLeft_eq, Nat.shiftLeft_eq]
    unfold UINT32_MOD
    norm_num
    omega
  have e : sm_mbms_session_duration_ie_get 4 [b0, b1, b2, b3] msd =
      some (NW_OK,
        { seconds := ((b0 <<< 17) + (b1 <<< 9) + (b2 &&& 0x80)) % UINT32_MOD,
          days := b3 &&& 0x7F }) := rfl
  rw [e, Nat.mod_eq_of_lt hlt, Nat.shiftLeft_eq, Nat.shiftLeft_eq]

theorem C9_witness :
    ((3 : Nat) < 256 ∧ (1 : Nat) < 256 ∧ (0xFF : Nat) < 256) ∧
    sm_mbms_session_duration_ie_get 4 [3, 1, 0xFF, 0xFF]
        { seconds := 0, days := 0 } =
      some (NW_OK,
        { seconds := 3 * 2 ^ 17 + 1 * 2 ^ 9 + (0xFF &&& 0x80),
          days := 0xFF &&& 0x7F }) :=
  ⟨by decide,
   C9_session_duration_fields 3 1 0xFF 0xFF (by decide) (by decide)
     (by decide) (by decide) _⟩

/-- Claim C7: the claim states that every decoder terminates on every
input; the code refutes it.  The TMGI decoder never produces a result on
any input and any iteration budget, and the service-area decoder never
produces a result whenever the element-count byte is positive: both loops
keep `decoded` at 0 forever. -/
theorem C7_decode_loops_never_terminate :
    (∀ ieLength ieValue tmgi fuel,
        sm_tmgi_ie_get ieLength ieValue tmgi fuel = none) ∧
    (∀ ieLength n rest msa fuel, 0 < n →
        sm_mbms_service_area_ie_get ieLength (n :: rest) msa fuel = none) := by
  refine ⟨sm_tmgi_ie_get_eq_none, ?_⟩
  intro ieLength n rest msa fuel hn
  unfold sm_mbms_service_area_ie_get
  simp only [List.get?_cons_zero, serviceAreaLoop_eq_none _ n hn]

theorem C7_witness :
    0 < 1 ∧
    sm_mbms_service_area_ie_get 3 [1, 0, 5]
      { num_service_area := 0, serviceArea := [] } 100 = none :=
  ⟨by decide,
   C7_decode_loops_never_terminate.2 3 1 [0, 5]
     { num_service_area := 0, serviceArea := [] } 100 (by decide)⟩

/-- Claim C6: the claim states that on a well-formed TMGI body the decoder
returns with the big-endian service id and the swapped-nibble PLMN digits;
the code refutes it.  On the well-formed 9-byte body below (6 service-id
digits, then PLMN bytes 0x21 0x43 0x65) the decoder never returns for any
iteration budget, because the service-id loop never increments `decoded`. -/
theorem C6_tmgi_decoder_never_returns (fuel : Nat) :
    sm_tmgi_ie_get 6 [0x00, 0x00, 0x01, 0x02, 0x03, 0x04, 0x21, 0x43, 0x65]
      { serviceId := 0, plmn := ⟨0, 0, 0, 0, 0, 0⟩ } fuel = none :=
  sm_tmgi_ie_get_eq_none _ _ _ _

/-- Claim C8: the bearer-flags decode fails with `NW_GTPV2C_IE_INCORRECT`
(the `IncorrectLength` failure, distinct from `NW_FAILURE`) for every
declared length other than 1; for a 1-byte body, `msri` is bit 0 and
`lmri` is bit 1 of that byte, with `0x01` giving `msri` only and `0x03`
giving both. -/
theorem C8_bearer_flags :
    (∀ ieLength ieValue f, ieLength ≠ 1 →
        sm_mbms_flags_ie_get ieLength ieValue f =
          some (NW_GTPV2C_IE_INCORRECT, f)) ∧
    (∀ b f, sm_mbms_flags_ie_get 1 [b] f =
        some (NW_OK, { msri := b.testBit 0, lmri := b.testBit 1 })) ∧
    (∀ f, sm_mbms_flags_ie_get 1 [0x01] f =
        some (NW_OK, { msri := true, lmri := false })) ∧
    (∀ f, sm_mbms_flags_ie_get 1 [0x03] f =
        some (NW_OK, { msri := true, lmri := true })) := by
  refine ⟨?_, ?_, fun f => rfl, fun f => rfl⟩
  · intro ieLength ieValue f h
    unfold sm_mbms_flags_ie_get
    simp [h]
  · intro b f
    have e : sm_mbms_flags_ie_get 1 [b] f =
        some (NW_OK, { msri := b &&& 1 != 0, lmri := b &&& 2 != 0 }) := rfl
    rw [e, and_one_bne_zero, and_two_bne_zero]

theorem C8_witness :
    (2 : Nat) ≠ 1 ∧
    sm_mbms_flags_ie_get 2 [0, 0] { msri := false, lmri := false } =
      some (NW_GTPV2C_IE_INCORRECT, { msri := false, lmri := false }) :=
  ⟨by decide, C8_bearer_flags.1 2 [0, 0] _ (by decide)⟩

/-- The all-zero input record handed to the IP-multicast decoder in the
C5 instances. -/
def ipmc0 : MbmsIpMulticastDistribution :=
  { cteid := 0, da_type := 0, sa_type := 0,
    distribution_address := MbmsAddr.unset,
    source_address := MbmsAddr.unset, hc_indication := 0 }

set_option maxRecDepth 2000 in
/-- Claim C5: after the 4 CTEID bytes, the first descriptor byte drives the
tagged-address decode.  (1) Family 0 (descriptor `0x00`) copies the next 4
bytes as a big-endian IPv4 address kept in network order — the wire bytes
verbatim; (2) the same holds for every descriptor whose top 2 bits are 0,
shown at the `192.0.2.1` body; (3) family 1 with an explicit low-6-bit
length other than 16 fails with `NW_FAILURE`; (4) every descriptor byte
whose family field exceeds 1 — families 2 and 3, i.e. all of
`0x80 .. 0xFF` — fails with `NW_FAILURE` (the code's
`UnsupportedVariant`) after writing only `cteid` and `da_type`; (5) the
`0xC0` instance of that failure; (6) family 1 with explicit length 16
succeeds and copies 16 bytes verbatim. -/
theorem C5_ip_multicast_address_dispatch :
    (∀ b5 b6 b7 b8 : Nat,
        sm_mbms_ip_multicast_distribution_ie_get 14
          [0, 0, 0, 1, 0x00, b5, b6, b7, b8, 0x00, 10, 0, 0, 1, 5] ipmc0 =
          some (NW_OK,
            { cteid := 1, da_type := 0, sa_type := 0,
              distribution_address := MbmsAddr.ipv4 [b5, b6, b7, b8],
              source_address := MbmsAddr.ipv4 [10, 0, 0, 1],
              hc_indication := 5 })) ∧
    (∀ d : Fin 64,
        sm_mbms_ip_multicast_distribution_ie_get 14
          [0, 0, 0, 1, d.val, 192, 0, 2, 1, 0x00, 10, 0, 0, 1, 5] ipmc0 =
          some (NW_OK,
            { cteid := 1, da_type := 0, sa_type := 0,
              distribution_address := MbmsAddr.ipv4 [192, 0, 2, 1],
              source_address := MbmsAddr.ipv4 [10, 0, 0, 1],
              hc_indication := 5 })) ∧
    (∀ l : Fin 64, l.val ≠ 16 →
        sm_mbms_ip_multicast_distribution_ie_get 14
          [0, 0, 0, 1, 64 + l.val, 0, 0, 0, 0, 0, 0, 0, 0, 0, 0] ipmc0 =
          some (NW_FAILURE, { ipmc0 with cteid := 1, da_type := 1 })) ∧
    (∀ d : Fin 256, 1 < (d.val &&& 0xC0) >>> 6 →
        sm_mbms_ip_multicast_distribution_ie_get 14
          [0, 0, 0, 1, d.val, 0, 0, 0, 0, 0, 0, 0, 0, 0, 0] ipmc0 =
          some (NW_FAILURE,
            { ipmc0 with cteid := 1, da_type := (d.val &&& 0xC0) >>> 6 })) ∧
    (sm_mbms_ip_multicast_distribution_ie_get 14
        [0, 0, 0, 1, 0xC0, 0, 0, 0, 0, 0, 0, 0, 0, 0, 0] ipmc0 =
        some (NW_FAILURE, { ipmc0 with cteid := 1, da_type := 3 })) ∧
    (sm_mbms_ip_multicast_distribution_ie_get 27
        (([0, 0, 0, 1, 0x50] ++ List.replicate 16 0) ++ [0x00, 10, 0, 0, 1, 5])
        ipmc0 =
        some (NW_OK,
          { cteid := 1, da_type := 1, sa_type := 0,
            distribution_address := MbmsAddr.ipv6 (List.replicate 16 0),
            source_address := MbmsAddr.ipv4 [10, 0, 0, 1],
            hc_indication := 5 })) := by
  refine ⟨fun b5 b6 b7 b8 => rfl, by decide, by decide, ?_, by decide,
    by decide⟩
  decide

set_option maxRecDepth 2000 in
theorem C5_witness :
    (((1 : Fin 64).val ≠ 16) ∧
     sm_mbms_ip_multicast_distribution_ie_get 14
        [0, 0, 0, 1, 64 + (1 : Fin 64).val, 0, 0, 0, 0, 0, 0, 0, 0, 0, 0] ipmc0 =
      some (NW_FAILURE, { ipmc0 with cteid := 1, da_type := 1 })) ∧
    ((1 < ((128 : Fin 256).val &&& 0xC0) >>> 6) ∧
     sm_mbms_ip_multicast_distribution_ie_get 14
        [0, 0, 0, 1, (128 : Fin 256).val, 0, 0, 0, 0, 0, 0, 0, 0, 0, 0] ipmc0 =
      some (NW_FAILURE, { ipmc0 with cteid := 1, da_type := ((128 : Fin 256).val &&& 0xC0) >>> 6 })) :=
  ⟨⟨by decide, C5_ip_multicast_address_dispatch.2.2.1 1 (by decide)⟩,
   ⟨by decide, C5_ip_multicast_address_dispatch.2.2.2.1 128 (by decide)⟩⟩

/-! ## Helper lemmas about the PDN table -/

lemma getD_set_self {α : Type} [Inhabited α] :
    ∀ (l : List α) (i : Nat) (s : α), i < l.length →
      (l.set i s).getD i default = s
  | [], i, s, h => absurd h (by simp)
  | a :: l, 0, s, h => rfl
  | a :: l, i + 1, s, h =>
    getD_set_self l i s (Nat.lt_of_succ_lt_succ (by simpa using h))

lemma getD_set_ne {α : Type} [Inhabited α] :
    ∀ (l : List α) (i j : Nat) (s : α), j ≠ i →
      (l.set i s).getD j default = l.getD j default
  | [], _, _, _, _ => rfl
  | a :: l, 0, 0, s, h => absurd rfl h
  | a :: l, 0, j + 1, s, h => rfl
  | a :: l, i + 1, 0, s, h => rfl
  | a :: l, i + 1, j + 1, s, h =>
    getD_set_ne l i j s (fun e => h (by rw [e]))

lemma occCount_set :
    ∀ (l : List PdnSlot) (i : Nat) (s : PdnSlot), i < l.length →
      occCount (l.set i s) + (if (l.getD i default).data.isSome then 1 else 0)
        = occCount l + (if s.data.isSome then 1 else 0)
  | [], i, s, h => absurd h (by simp)
  | a :: l, 0, s, h => by
    show (if s.data.isSome then 1 else 0) + occCount l +
        (if a.data.isSome then 1 else 0)
      = (if a.data.isSome then 1 else 0) + occCount l +
        (if s.data.isSome then 1 else 0)
    omega
  | a :: l, i + 1, s, h => by
    have ih := occCount_set l i s (Nat.lt_of_succ_lt_succ (by simpa using h))
    show (if a.data.isSome then 1 else 0) + occCount (l.set i s) +
        (if (l.getD i default).data.isSome then 1 else 0)
      = (if a.data.isSome then 1 else 0) + occCount l +
        (if s.data.isSome then 1 else 0)
    omega

lemma findFreePid_spec :
    ∀ (l : List PdnSlot) (i : Nat), findFreePid l = some i →
      i < l.length ∧ (l.getD i default).data = none
  | [], i, h => by simp [findFreePid] at h
  | s :: l, i, h => by
    unfold findFreePid at h
    by_cases hs : s.data.isSome
    · rw [if_pos hs] at h
      cases hf : findFreePid l with
      | none => rw [hf] at h; simp at h
      | some j =>
        rw [hf] at h
        obtain ⟨hlt, hdata⟩ := findFreePid_spec l j hf
        have hij : j + 1 = i := by
          simpa using h
        subst hij
        exact ⟨Nat.succ_lt_succ hlt, by simpa using hdata⟩
    · rw [if_neg hs] at h
      cases h
      refine ⟨Nat.succ_pos _, ?_⟩
      show s.data = none
      exact Option.not_isSome_iff_eq_none.mp hs

/-- Exhaustive description of `_pdn_connectivity_delete`: either all guards
pass and the recovered `pti` differs from the sentinel, in which case the
slot is released; or the call returns the sentinel with the context
untouched; or `pid` is negative and the call hits the out-of-bounds
access. -/
lemma delete_cases (ctx : EsmDataCtx) (pid : Int) :
    (∃ d, 0 ≤ pid ∧ pid < (ESM_DATA_PDN_MAX : Int) ∧
      (ctx.pdn.getD pid.toNat default).pid = pid ∧
      (ctx.pdn.getD pid.toNat default).data = some d ∧
      (ctx.pdn.getD pid.toNat default).is_active = false ∧
      d.pti ≠ ESM_PT_UNASSIGNED ∧
      _pdn_connectivity_delete ctx pid =
        some (d.pti,
          { n_pdns := ctx.n_pdns - 1,
            pdn := ctx.pdn.set pid.toNat
              { pid := -1,
                is_active := (ctx.pdn.getD pid.toNat default).is_active,
                data := none } })) ∨
    (_pdn_connectivity_delete ctx pid = some (ESM_PT_UNASSIGNED, ctx)) ∨
    (pid < 0 ∧ _pdn_connectivity_delete ctx pid = none) := by
  have hrec :
      (∃ d, (ctx.pdn.getD pid.toNat default).pid = pid ∧
        (ctx.pdn.getD pid.toNat default).data = some d ∧
        (ctx.pdn.getD pid.toNat default).is_active = false ∧
        deleteRecoveredPti ctx pid = d.pti) ∨
      deleteRecoveredPti ctx pid = ESM_PT_UNASSIGNED := by
    unfold deleteRecoveredPti
    split
    next h3 => exact Or.inr rfl
    next h3 =>
      split
      next hdata => exact Or.inr rfl
      next d hdata =>
        split
        next h4 => exact Or.inr rfl
        next h4 =>
          exact Or.inl ⟨d, (not_ne_iff.mp h3).symm, hdata,
            Bool.eq_false_iff.mpr h4, rfl⟩
  unfold _pdn_connectivity_delete
  by_cases h1 : pid < (ESM_DATA_PDN_MAX : Int)
  · rw [if_pos h1]
    by_cases h2 : pid < 0
    · rw [if_pos h2]
      exact Or.inr (Or.inr ⟨h2, rfl⟩)
    · rw [if_neg h2]
      rcases hrec with ⟨d, hpid, hdata, hact, hpti⟩ | hpti
      · by_cases h5 : deleteRecoveredPti ctx pid ≠ ESM_PT_UNASSIGNED
        · rw [if_pos h5]
          rw [hpti] at h5 ⊢
          exact Or.inl ⟨d, Int.not_lt.mp h2, h1, hpid, hdata, hact, h5, rfl⟩
        · rw [if_neg h5]
          rw [not_ne_iff.mp h5]
          exact Or.inr (Or.inl rfl)
      · rw [hpti]
        rw [if_neg (not_ne_iff.mpr rfl)]
        exact Or.inr (Or.inl rfl)
  · rw [if_neg h1]
    exact Or.inr (Or.inl rfl)

/-- The create handler preserves the slot invariant. -/
lemma create_preserves (ctx : EsmDataCtx) (pti : Int) (apn : List Nat)
    (ty : Nat) (addr : List Nat) (em ao aao : Bool) (h : EsmInvariant ctx) :
    EsmInvariant (_pdn_connectivity_create ctx pti apn ty addr em ao aao).2 := by
  obtain ⟨hlen, hcount, hwf⟩ := h
  unfold _pdn_connectivity_create
  split
  next hf => exact ⟨hlen, hcount, hwf⟩
  next pid hf =>
    obtain ⟨hlt, hdata⟩ := findFreePid_spec ctx.pdn pid hf
    split
    next hp =>
      split
      next hao =>
        refine ⟨?_, ?_, ?_⟩
        · show (ctx.pdn.set pid _).length = ESM_DATA_PDN_MAX
          rw [List.length_set]; exact hlen
        · show ctx.n_pdns + 1 = ((occCount (ctx.pdn.set pid
            { pid := (pid : Int), is_active := false,
              data := some (newPdnData pti apn ty addr em aao) })) : Int)
          have hocc := occCount_set ctx.pdn pid
            { pid := (pid : Int), is_active := false,
              data := some (newPdnData pti apn ty addr em aao) } hlt
          rw [hdata] at hocc
          have hocc2 : occCount (ctx.pdn.set pid
              { pid := (pid : Int), is_active := false,
                data := some (newPdnData pti apn ty addr em aao) }) + 0
              = occCount ctx.pdn + 1 := hocc
          rw [hcount]
          omega
        · intro i hi
          rw [List.length_set] at hi
          by_cases hip : i = pid
          · subst hip
            rw [getD_set_self _ _ _ hlt]
            exact ⟨fun _ => rfl, fun habs => by simp at habs⟩
          · rw [getD_set_ne _ _ _ _ hip]
            exact hwf i hi
      next hao => exact ⟨hlen, hcount, hwf⟩
    next hp => exact ⟨hlen, hcount, hwf⟩

/-- The delete handler preserves the slot invariant whenever it returns. -/
lemma delete_preserves (ctx : EsmDataCtx) (pid : Int) (pti : Int)
    (ctx1 : EsmDataCtx) (h : EsmInvariant ctx)
    (hd : _pdn_connectivity_delete ctx pid = some (pti, ctx1)) :
    EsmInvariant ctx1 := by
  obtain ⟨hlen, hcount, hwf⟩ := h
  rcases delete_cases ctx pid with
    ⟨d, h0, h1, hpid, hdata, hact, hne, hdel⟩ | hdel | ⟨hneg, hdel⟩
  · rw [hdel] at hd
    cases hd
    have hlt : pid.toNat < ctx.pdn.length := by
      rw [hlen]
      unfold ESM_DATA_PDN_MAX at h1 ⊢
      omega
    refine ⟨?_, ?_, ?_⟩
    · show (ctx.pdn.set pid.toNat _).length = ESM_DATA_PDN_MAX
      rw [List.length_set]; exact hlen
    · show ctx.n_pdns - 1 = ((occCount (ctx.pdn.set pid.toNat
        { pid := -1, is_active := (ctx.pdn.getD pid.toNat default).is_active,
          data := none })) : Int)
      have hocc := occCount_set ctx.pdn pid.toNat
        { pid := -1, is_active := (ctx.pdn.getD pid.toNat default).is_active,
          data := none } hlt
      rw [hdata] at hocc
      have hocc2 : occCount (ctx.pdn.set pid.toNat
          { pid := -1,
            is_active := (ctx.pdn.getD pid.toNat default).is_active,
            data := none }) + 1 = occCount ctx.pdn + 0 := hocc
      rw [hcount]
      omega
    · intro i hi
      rw [List.length_set] at hi
      by_cases hip : i = pid.toNat
      · subst hip
        rw [getD_set_self _ _ _ hlt]
        exact ⟨fun habs => by simp at habs, fun _ => rfl⟩
      · rw [getD_set_ne _ _ _ _ hip]
        exact hwf i hi
  · rw [hdel] at hd
    cases hd
    exact ⟨hlen, hcount, hwf⟩
  · rw [hdel] at hd
    cases hd

/-- Any run of create/delete calls from an invariant-satisfying context
that completes keeps the invariant. -/
lemma runPdnOps_preserves :
    ∀ (ops : List PdnOp) (ctx ctx' : EsmDataCtx), EsmInvariant ctx →
      runPdnOps ctx ops = some ctx' → EsmInvariant ctx'
  | [], ctx, ctxq, h, hr => by
    cases hr
    exact h
  | PdnOp.create pti apn ty addr em ao aao :: ops, ctx, ctxq, h, hr =>
    runPdnOps_preserves ops _ ctxq
      (create_preserves ctx pti apn ty addr em ao aao h) hr
  | PdnOp.delete pid :: ops, ctx, ctxq, h, hr => by
    unfold runPdnOps at hr
    cases hd : _pdn_connectivity_delete ctx pid with
    | none => rw [hd] at hr; cases hr
    | some r =>
      rw [hd] at hr
      exact runPdnOps_preserves ops r.2 ctxq
        (delete_preserves ctx pid r.1 r.2 h (by rw [hd])) hr

instance decSlotsWellFormed (l : List PdnSlot) :
    Decidable (slotsWellFormed l) := by
  unfold slotsWellFormed
  infer_instance

instance decEsmInvariant (ctx : EsmDataCtx) : Decidable (EsmInvariant ctx) := by
  unfold EsmInvariant
  infer_instance

/-- The empty table satisfies the invariant. -/
lemma emptyEsmCtx_invariant : EsmInvariant emptyEsmCtx := by decide

/-- When no free slot exists or the record allocation fails, create returns
-1 and the context untouched. -/
lemma create_fail (ctx : EsmDataCtx) (pti : Int) (apn : List Nat) (ty : Nat)
    (addr : List Nat) (em aao : Bool) (ao : Bool)
    (h : findFreePid ctx.pdn = none ∨ ao = false) :
    _pdn_connectivity_create ctx pti apn ty addr em ao aao = (-1, ctx) := by
  unfold _pdn_connectivity_create
  split
  next => rfl
  next pid hf =>
    rcases h with h | h
    · rw [h] at hf
      cases hf
    · subst h
      split
      next hp => simp
      next hp => rfl

/-! ## Table claims -/

/-- Claim C2: after any completed sequence of create/delete calls from the
empty subscriber table, `n_pdns` equals the number of occupied slots, every
occupied slot stores its own index as id, and every free slot stores the
sentinel -1 (the latter two making up `slotsWellFormed`). -/
theorem C2_slot_invariant (ops : List PdnOp) (ctxFinal : EsmDataCtx)
    (h : runPdnOps emptyEsmCtx ops = some ctxFinal) :
    ctxFinal.n_pdns = (occCount ctxFinal.pdn : Int) ∧
    slotsWellFormed ctxFinal.pdn :=
  (runPdnOps_preserves ops emptyEsmCtx ctxFinal emptyEsmCtx_invariant h).2

/-- A free slot, as used in the concrete witness tables below. -/
def slotFree : PdnSlot := { pid := -1, is_active := false, data := none }

/-- A connection record with no APN and no address, as built by a create
call with empty APN/address, used in the concrete witness tables below. -/
def dataW (pti : Int) (em : Bool) : EsmPdnData :=
  { pti := pti, is_emergency := em, apn_length := 0, apn_value := [],
    ip_addr := List.replicate 8 0, pdn_type := 0 }

/-- The table reached by the four C2 witness calls: create pti 5, create
pti 7, delete id 0, create pti 9 (slot 0 is reused). -/
def c2final : EsmDataCtx :=
  { n_pdns := 2,
    pdn := [ { pid := 0, is_active := false, data := some (dataW 9 true) },
             { pid := 1, is_active := false, data := some (dataW 7 false) },
             slotFree, slotFree ] }

theorem C2_witness :
    runPdnOps emptyEsmCtx
      [PdnOp.create 5 [1] 1 [10, 0, 0, 1] false true true,
       PdnOp.create 7 [] 1 [] false true true,
       PdnOp.delete 0,
       PdnOp.create 9 [] 1 [] true true true] = some c2final ∧
    (c2final.n_pdns = (occCount c2final.pdn : Int) ∧
     slotsWellFormed c2final.pdn) :=
  ⟨by decide,
   C2_slot_invariant
     [PdnOp.create 5 [1] 1 [10, 0, 0, 1] false true true,
      PdnOp.create 7 [] 1 [] false true true,
      PdnOp.delete 0,
      PdnOp.create 9 [] 1 [] true true true]
     c2final (by decide)⟩

/-- Claim C3: when the table has no free slot, or the allocation of the
connection record fails, the PDN connectivity request reports
`RETURNerror` with the `InsufficientResources` cause and the subscriber
table is returned unchanged. -/
theorem C3_request_insufficient_resources (ctx : EsmDataCtx) (pti : Int)
    (rt : PdnRequestType) (apn : List Nat) (ty : Nat) (addr : List Nat)
    (allocOk apnAllocOk : Bool)
    (h : findFreePid ctx.pdn = none ∨ allocOk = false) :
    esm_proc_pdn_connectivity_request ctx pti rt apn ty addr allocOk apnAllocOk
      = (RETURNerror, ESM_CAUSE_INSUFFICIENT_RESOURCES, ctx) := by
  unfold esm_proc_pdn_connectivity_request
  rw [create_fail ctx pti apn ty addr (rt == PdnRequestType.emergency)
    apnAllocOk allocOk h]
  rfl

/-- The table after `ESM_DATA_PDN_MAX` successful creates, used as the C3
witness: every slot is occupied, so the next create finds no free slot. -/
def c3full : EsmDataCtx :=
  { n_pdns := 4,
    pdn := [ { pid := 0, is_active := false, data := some (dataW 1 false) },
             { pid := 1, is_active := false, data := some (dataW 2 false) },
             { pid := 2, is_active := false, data := some (dataW 3 false) },
             { pid := 3, is_active := false, data := some (dataW 4 false) } ] }

theorem C3_witness :
    (findFreePid c3full.pdn = none ∨ (true : Bool) = false) ∧
    esm_proc_pdn_connectivity_request c3full 9 PdnRequestType.normal [] 1 []
        true true
      = (RETURNerror, ESM_CAUSE_INSUFFICIENT_RESOURCES, c3full) :=
  ⟨Or.inl (by decide),
   C3_request_insufficient_resources c3full 9 PdnRequestType.normal [] 1 []
     true true (Or.inl (by decide))⟩

/-- Claim C4: the claim states that an out-of-range id makes delete return
the Unassigned sentinel without mutation; the code refutes it for negative
ids.  The source checks only `pid < ESM_DATA_PDN_MAX`, so `pid = -1`
passes the guard and `ctx->esm_data_ctx.pdn[pid]` is evaluated at a
negative index: an out-of-bounds access (the `none` result), not a clean
`ESM_PT_UNASSIGNED` return. -/
theorem C4_delete_negative_id_out_of_bounds :
    _pdn_connectivity_delete emptyEsmCtx (-1) = none := rfl

/-- The recovered pti of a delete call on a valid, occupied and inactive
entry is the entry's stored pti. -/
lemma deleteRecoveredPti_eq (ctx : EsmDataCtx) (pid : Int) (d : EsmPdnData)
    (hpid : (ctx.pdn.getD pid.toNat default).pid = pid)
    (hdata : (ctx.pdn.getD pid.toNat default).data = some d)
    (hact : (ctx.pdn.getD pid.toNat default).is_active = false) :
    deleteRecoveredPti ctx pid = d.pti := by
  unfold deleteRecoveredPti
  split
  next h3 => exact absurd hpid.symm h3
  next h3 =>
    split
    next hd2 =>
      rw [hd2] at hdata
      cases hdata
    next d2 hd2 =>
      rw [hd2] at hdata
      cases hdata
      split
      next h4 =>
        rw [hact] at h4
        cases h4
      next h4 => rfl

/-- Claim C10 (amended): for every context and every non-negative id, the
failure handler reports `RETURNok` exactly when the entry for that id
existed (id in range, stored id matching, slot occupied), was inactive,
and additionally stored a pti different from the `ESM_PT_UNASSIGNED`
sentinel; in every other case it reports `RETURNerror` (or, for a negative
id, hits the out-of-bounds access of delete). -/
theorem C10_failure_ok_iff (ctx : EsmDataCtx) (pid : Int) (h0 : 0 ≤ pid) :
    (∃ ctx1, esm_proc_pdn_connectivity_failure ctx pid
        = some (RETURNok, ctx1)) ↔
    (pid < (ESM_DATA_PDN_MAX : Int) ∧
     (ctx.pdn.getD pid.toNat default).pid = pid ∧
     (ctx.pdn.getD pid.toNat default).is_active = false ∧
     ∃ d, (ctx.pdn.getD pid.toNat default).data = some d ∧
       d.pti ≠ ESM_PT_UNASSIGNED) := by
  constructor
  · intro ⟨ctx1, hok⟩
    rcases delete_cases ctx pid with
      ⟨d, _, h1, hpid, hdata, hact, hne, hdel⟩ | hdel | ⟨hneg, hdel⟩
    · exact ⟨h1, hpid, hact, d, hdata, hne⟩
    · unfold esm_proc_pdn_connectivity_failure at hok
      rw [hdel] at hok
      simp [RETURNok, RETURNerror] at hok
    · exact absurd hneg (Int.not_lt.mpr h0)
  · intro ⟨h1, hpid, hact, d, hdata, hne⟩
    have hrp := deleteRecoveredPti_eq ctx pid d hpid hdata hact
    have hdel : _pdn_connectivity_delete ctx pid =
        some (d.pti,
          { n_pdns := ctx.n_pdns - 1,
            pdn := ctx.pdn.set pid.toNat
              { pid := -1,
                is_active := (ctx.pdn.getD pid.toNat default).is_active,
                data := none } }) := by
      unfold _pdn_connectivity_delete
      rw [if_pos h1, if_neg (Int.not_lt.mpr h0), hrp, if_pos hne]
    refine ⟨{ n_pdns := ctx.n_pdns - 1,
              pdn := ctx.pdn.set pid.toNat
                { pid := -1,
                  is_active := (ctx.pdn.getD pid.toNat default).is_active,
                  data := none } }, ?_⟩
    unfold esm_proc_pdn_connectivity_failure
    rw [hdel]
    simp [hne]

/-- The table after a create call whose pti is the `ESM_PT_UNASSIGNED`
sentinel (create accepts any pti), used to refute claim C10 as stated. -/
def c10ctx : EsmDataCtx :=
  (_pdn_connectivity_create emptyEsmCtx ESM_PT_UNASSIGNED [] 1 [] false
    true true).2

/-- Claim C10 counterexample: in `c10ctx` the entry for id 0 exists
(occupied, with matching stored id) and is inactive, yet the failure
handler reports `RETURNerror`, because the recovered pti equals the
sentinel and delete therefore reports `ESM_PT_UNASSIGNED`. -/
theorem C10_counterexample :
    ((c10ctx.pdn.getD 0 default).pid = 0 ∧
     (c10ctx.pdn.getD 0 default).data.isSome = true ∧
     (c10ctx.pdn.getD 0 default).is_active = false) ∧
    esm_proc_pdn_connectivity_failure c10ctx 0
      = some (RETURNerror, c10ctx) := by
  decide

/-- The table after a create call with pti 5, used as the C10 witness. -/
def c10ctxW : EsmDataCtx :=
  (_pdn_connectivity_create emptyEsmCtx 5 [] 1 [] false true true).2

theorem C10_witness :
    (0 : Int) ≤ 0 ∧
    ((∃ ctx1, esm_proc_pdn_connectivity_failure c10ctxW 0
        = some (RETURNok, ctx1)) ↔
     ((0 : Int) < (ESM_DATA_PDN_MAX : Int) ∧
      (c10ctxW.pdn.getD (0 : Int).toNat default).pid = 0 ∧
      (c10ctxW.pdn.getD (0 : Int).toNat default).is_active = false ∧
      ∃ d, (c10ctxW.pdn.getD (0 : Int).toNat default).data = some d ∧
        d.pti ≠ ESM_PT_UNASSIGNED)) :=
  ⟨le_refl 0, C10_failure_ok_iff c10ctxW 0 (le_refl 0)⟩
